import Mathlib

/-!
Verification development for the traffic micro-simulation kernel of the
chaos-lane-driver repository.

The simulation kernel is embedded shallowly over exact rationals: every
JavaScript number is modelled as a `ℚ` (the idealized real-number semantics
of the arithmetic in the source), vectors (`three.js` `Vector3`) as triples
of rationals, and the per-tick update functions as pure Lean functions,
following the source line by line.

Square roots appear in the source only inside comparisons
(`position.distanceTo(q) < r`, normalized-vector dot products, and the
waypoint-arrival test).  Each such comparison is embedded as the exactly
equivalent rational comparison on squared quantities (`sqrtLtB`,
`sqrtGtB`, `unitDotGt` below, with bridging lemmas against `Real.sqrt`
proving the equivalence).  The one square-root-valued *output* of the
source — the moved `position` (and the derived `velocity`/`rotation`
fields), obtained by scaling a normalized direction vector — is not a
rational number; those rendering-facing fields are therefore not carried
in the update results, and the single test that depends on the moved
position (the waypoint-arrival test of the enhanced engine, part_006
line 760) is abstracted as an explicit Boolean input `reached` that the
theorems quantify over.  No claim reads the moved position.

Sources embedded here:
- part_006 (enhanced simulation context): `updateVehiclePhysics`,
  `updateTrafficSignal`, `updateMetrics`, `generateVehiclePath`
  (signalized branch), `placeObstructionAtPosition`;
- part_003 (optimized variant): `updateVehiclePhysics`;
- part_002 (simple variant): `updateVehicle`;
- part_000 (basic context): `updateMetrics`, `placeObstructionAtPosition`;
- src/components/simulation/EnhancedSimulationContext.tsx (A/B variant):
  `generateVehiclePath`, `updateVehicle`, the signal block of
  `updateSimulation`.
-/

/-- Ground coordinates, mirroring the `three.js` `Vector3` values used by the
simulation (elevation `y` is carried because obstruction centers in part_000
sit at `y = 0.5` and `distanceTo` is a 3-D distance). -/
structure V3 where
  x : ℚ
  y : ℚ
  z : ℚ
deriving DecidableEq

/-- Squared Euclidean distance, the square of `p.distanceTo(q)`. -/
def distSq (p q : V3) : ℚ :=
  (p.x - q.x) ^ 2 + (p.y - q.y) ^ 2 + (p.z - q.z) ^ 2

/-- Decides `Real.sqrt dsq < c` for `0 ≤ dsq` without leaving `ℚ`:
true iff `c` is positive and `dsq < c²`.  Used for every source comparison
of the form `distance < c`. -/
def sqrtLtB (dsq c : ℚ) : Bool :=
  decide (0 < c) && decide (dsq < c * c)

/-- Decides `c < Real.sqrt dsq` for `0 ≤ dsq`: true iff `c` is negative or
`c² < dsq`.  Used for the source comparison `dist > 0.5` of part_003. -/
def sqrtGtB (dsq c : ℚ) : Bool :=
  decide (c < 0) || decide (c * c < dsq)

/-- The source test `p.distanceTo(q) < r`, decided via squares. -/
def distLt (p q : V3) (r : ℚ) : Bool :=
  sqrtLtB (distSq p q) r

theorem sqrtLtB_iff (dsq c : ℚ) (h : 0 ≤ dsq) :
    sqrtLtB dsq c = true ↔ Real.sqrt (dsq : ℝ) < (c : ℝ) := by
  unfold sqrtLtB
  simp only [Bool.and_eq_true, decide_eq_true_eq]
  have hsq : (0 : ℝ) ≤ (dsq : ℝ) := by exact_mod_cast h
  rcases le_or_lt c 0 with hc | hc
  · constructor
    · rintro ⟨h1, _⟩
      exact absurd h1 (not_lt.mpr hc)
    · intro hlt
      have h0 : (0 : ℝ) ≤ (c : ℝ) := le_trans (Real.sqrt_nonneg _) hlt.le
      have hc0 : (0 : ℚ) ≤ c := by exact_mod_cast h0
      have hceq : c = 0 := le_antisymm hc hc0
      subst hceq
      have := Real.sqrt_nonneg (dsq : ℝ)
      simp only [Rat.cast_zero] at hlt
      linarith
  · rw [Real.sqrt_lt' (by exact_mod_cast hc)]
    constructor
    · rintro ⟨_, h2⟩
      have h2' : (dsq : ℝ) < ((c * c : ℚ) : ℝ) := by exact_mod_cast h2
      calc (dsq : ℝ) < ((c * c : ℚ) : ℝ) := h2'
        _ = (c : ℝ) ^ 2 := by push_cast; ring
    · intro h2
      refine ⟨hc, ?_⟩
      have h2' : (dsq : ℝ) < ((c * c : ℚ) : ℝ) := by push_cast at h2 ⊢; linarith
      exact_mod_cast h2'

theorem sqrtGtB_iff (dsq c : ℚ) (h : 0 ≤ dsq) :
    sqrtGtB dsq c = true ↔ (c : ℝ) < Real.sqrt (dsq : ℝ) := by
  unfold sqrtGtB
  simp only [Bool.or_eq_true, decide_eq_true_eq]
  have hsq : (0 : ℝ) ≤ (dsq : ℝ) := by exact_mod_cast h
  rcases lt_or_le c 0 with hc | hc
  · constructor
    · intro _
      calc (c : ℝ) < 0 := by exact_mod_cast hc
        _ ≤ Real.sqrt (dsq : ℝ) := Real.sqrt_nonneg _
    · intro _
      exact Or.inl hc
  · rw [show ((c : ℝ) < Real.sqrt (dsq : ℝ)) ↔ ((c : ℝ) ^ 2 < (dsq : ℝ)) from
      Real.lt_sqrt (by exact_mod_cast hc)]
    constructor
    · rintro (h1 | h2)
      · exact absurd h1 (not_lt.mpr hc)
      · have : ((c * c : ℚ) : ℝ) < (dsq : ℝ) := by exact_mod_cast h2
        calc (c : ℝ) ^ 2 = ((c * c : ℚ) : ℝ) := by push_cast; ring
          _ < (dsq : ℝ) := this
    · intro h2
      refine Or.inr ?_
      have : ((c * c : ℚ) : ℝ) < (dsq : ℝ) := by push_cast at h2 ⊢; linarith
      exact_mod_cast this

theorem distSq_nonneg (p q : V3) : 0 ≤ distSq p q := by
  unfold distSq
  positivity

/-- Signal lamp color. -/
inductive Color where
  | green
  | yellow
  | red
deriving DecidableEq

/-- Compass entry direction of a vehicle or obstruction lane. -/
inductive Dir where
  | north
  | south
  | east
  | west
deriving DecidableEq

/-- Turn intent of a vehicle. -/
inductive Turn where
  | straight
  | left
  | right
deriving DecidableEq

/-- Obstruction tool type. -/
inductive ObstructionType where
  | pothole
  | barricade
  | vendor
deriving DecidableEq

/-- The `effect` record attached to every obstruction. -/
structure Effect where
  speedReduction : ℚ
  capacityReduction : ℚ
  blocked : Bool
deriving DecidableEq

/-- A user-placed obstruction (part_006 `Obstruction` interface).  The
influence radius consumed by the kinematics engines is `size.x`. -/
structure Obstruction where
  id : ℕ
  type : ObstructionType
  position : V3
  size : V3
  lane : ℕ
  direction : Dir
  effect : Effect
deriving DecidableEq

/-- A simulated vehicle (the `Vehicle` interface), restricted to the fields
the embedded kernel functions read or write.  The rendering-only fields
(`rotation`, `targetRotation`, `velocity`, `lane`, `targetLane`,
`laneChangeTimer`, `isChangingLanes`, `isApproachingIntersection`, `type`,
`targetDirection`) are omitted: no claim mentions them and their updates
are pure presentation. -/
structure Vehicle where
  id : ℕ
  position : V3
  speed : ℚ
  targetSpeed : ℚ
  maxSpeed : ℚ
  acceleration : ℚ
  deceleration : ℚ
  safetyDistance : ℚ
  direction : Dir
  path : List V3
  pathIndex : ℕ
  isWaiting : Bool
  waitTime : ℚ
  co2Emitted : ℚ
deriving DecidableEq

/-- The claim-relevant fields produced by one per-tick vehicle update.  The
moved `position` (a normalized-direction displacement, hence not rational)
and the other rendering fields are not carried; see the file header. -/
structure KinematicsResult where
  targetSpeed : ℚ
  speed : ℚ
  pathIndex : ℕ
  isWaiting : Bool
  waitTime : ℚ
  co2Emitted : ℚ
deriving DecidableEq

/-- The configurable phase-duration table (`trafficSignal.cycle` of
part_006). -/
structure SigCycle where
  nsGreen : ℚ
  nsYellow : ℚ
  ewGreen : ℚ
  ewYellow : ℚ
  allRed : ℚ
deriving DecidableEq

/-- The five-phase signal state of part_006 (`TrafficSignal` interface). -/
structure TrafficSignal where
  northSouth : Color
  eastWest : Color
  timeRemaining : ℚ
  cycle : SigCycle
  isOptimized : Bool
deriving DecidableEq

/-- Embedding of part_006 `updateTrafficSignal` (lines 783-815): decrement
the countdown by `dt`; once it is `≤ 0`, step the five-phase chain keyed on
the current colors and reset the countdown to the entered phase's configured
duration. -/
def updateTrafficSignal (s : TrafficSignal) (dt : ℚ) : TrafficSignal :=
  let t := s.timeRemaining - dt
  if t ≤ 0 then
    if s.northSouth = Color.green then
      { s with northSouth := Color.yellow, eastWest := Color.red,
               timeRemaining := s.cycle.nsYellow }
    else if s.northSouth = Color.yellow then
      { s with northSouth := Color.red, eastWest := Color.red,
               timeRemaining := s.cycle.allRed }
    else if s.eastWest = Color.red ∧ s.northSouth = Color.red then
      { s with northSouth := Color.red, eastWest := Color.green,
               timeRemaining := s.cycle.ewGreen }
    else if s.eastWest = Color.green then
      { s with northSouth := Color.red, eastWest := Color.yellow,
               timeRemaining := s.cycle.ewYellow }
    else if s.eastWest = Color.yellow then
      { s with northSouth := Color.green, eastWest := Color.red,
               timeRemaining := s.cycle.nsGreen }
    else
      { s with timeRemaining := t }
  else
    { s with timeRemaining := t }

/-- The default duration table of part_006 (initial `useState` and
`resetToBaseline`). -/
def defaultCycle : SigCycle :=
  { nsGreen := 30, nsYellow := 5, ewGreen := 30, ewYellow := 5, allRed := 2 }

/-- State S0 with a full countdown for a given duration table: NS green,
EW red, countdown `nsGreen`. -/
def s0Full (c : SigCycle) : TrafficSignal :=
  { northSouth := Color.green, eastWest := Color.red,
    timeRemaining := c.nsGreen, cycle := c, isOptimized := false }

/-- The initial signal state of part_006. -/
def initialSignal : TrafficSignal := s0Full defaultCycle

/-- Repeated ticks. -/
def tickSeq (s : TrafficSignal) (dts : List ℚ) : TrafficSignal :=
  dts.foldl updateTrafficSignal s

/-- Signal states reachable from the initial state by ticks with
non-negative `dt`. -/
inductive SigReachable : TrafficSignal → Prop where
  | base : SigReachable initialSignal
  | step (s : TrafficSignal) (dt : ℚ) :
      SigReachable s → 0 ≤ dt → SigReachable (updateTrafficSignal s dt)

/-- The four-phase signal state of the A/B context
(`TrafficSignalState` of EnhancedSimulationContext.tsx). -/
structure SignalAB where
  northSouth : Color
  eastWest : Color
  timeRemaining : ℚ
  cycle : ℕ
deriving DecidableEq

/-- Embedding of the signal block of `updateSimulation`
(EnhancedSimulationContext.tsx lines 452-464): when the countdown has run
out, advance the cycle counter mod 4 and recolor (NS green on cycles 0-1,
EW green on cycles 2-3) with a fixed 30-unit countdown; otherwise just
decrement. -/
def updateSignalAB (s : SignalAB) (dt : ℚ) : SignalAB :=
  if s.timeRemaining ≤ 0 then
    let newCycle := (s.cycle + 1) % 4
    { northSouth := if newCycle < 2 then Color.green else Color.red,
      eastWest := if 2 ≤ newCycle then Color.green else Color.red,
      timeRemaining := 30,
      cycle := newCycle }
  else
    { s with timeRemaining := s.timeRemaining - dt }

/-- The initial A/B signal state (tsx lines 153-158). -/
def initialSignalAB : SignalAB :=
  { northSouth := Color.green, eastWest := Color.red,
    timeRemaining := 30, cycle := 0 }

/-- A/B signal states reachable from the initial state. -/
inductive SigReachableAB : SignalAB → Prop where
  | base : SigReachableAB initialSignalAB
  | step (s : SignalAB) (dt : ℚ) :
      SigReachableAB s → 0 ≤ dt → SigReachableAB (updateSignalAB s dt)

/-- The `Math.sign` function. -/
def sgn (q : ℚ) : ℚ :=
  if 0 < q then 1 else if q < 0 then -1 else 0

/-- One step of the obstruction `forEach` shared verbatim by part_006
(lines 728-737), part_002 (lines 320-329) and the A/B context (lines
376-385): an obstruction whose influence radius (`size.x`) contains the
vehicle either raises the blocked flag (when `effect.blocked`) or scales
the cumulative speed multiplier by `1 - effect.speedReduction`. -/
def scanStep (pos : V3) (acc : ℚ × Bool) (o : Obstruction) : ℚ × Bool :=
  if distLt pos o.position o.size.x then
    if o.effect.blocked then (acc.1, true)
    else (acc.1 * (1 - o.effect.speedReduction), acc.2)
  else acc

/-- The obstruction scan: cumulative speed multiplier (seeded at `1.0`) and
blocked flag (seeded `false`) over all obstructions. -/
def obstructionScan (obstructions : List Obstruction) (pos : V3) : ℚ × Bool :=
  obstructions.foldl (scanStep pos) (1, false)

/-- The instantaneous target speed of the cited kinematics code:
`isBlocked ? 0 : maxSpeed * speedMultiplier` (part_006 line 740, part_002
line 331). -/
def targetSpeedOf (obstructions : List Obstruction) (pos : V3) (maxSpeed : ℚ) : ℚ :=
  let scan := obstructionScan obstructions pos
  if scan.2 then 0 else maxSpeed * scan.1

/-- Specification-side blocked predicate (written from the spec's words,
for the refinement claim C4): some obstruction with `blocked = true`
contains the vehicle in its influence radius. -/
def specBlocked (obstructions : List Obstruction) (pos : V3) : Bool :=
  obstructions.any fun o => distLt pos o.position o.size.x && o.effect.blocked

/-- Specification-side cumulative factor (written from the spec's words):
the product of `1 - speedReduction` over all non-blocking obstructions
containing the vehicle. -/
def specFactor (obstructions : List Obstruction) (pos : V3) : ℚ :=
  ((obstructions.filter fun o =>
      distLt pos o.position o.size.x && !o.effect.blocked).map
    fun o => 1 - o.effect.speedReduction).prod

/-- Embedding of part_006 `updateVehiclePhysics` (lines 721-780), the
enhanced engine: obstruction scan, exponential smoothing of the target
speed (15% blend), acceleration-limited speed change clamped to
`[0, maxSpeed]`, waypoint advance, and wait/emissions accounting.
`reached` abstracts the arrival test `position.distanceTo(currentTarget)
< 2.0` on the moved position (line 760), whose value is a square-root
comparison on the displaced position; every theorem below holds for both
outcomes. -/
def updateVehiclePhysics (obstructions : List Obstruction) (v : Vehicle)
    (reached : Bool) (dt : ℚ) : KinematicsResult :=
  let desiredSpeed := targetSpeedOf obstructions v.position v.maxSpeed
  let targetSpeed := 0.15 * desiredSpeed + 0.85 * v.targetSpeed
  let speedDiff := targetSpeed - v.speed
  let speed :=
    if 0.1 < |speedDiff| then
      let accel := if 0 < speedDiff then v.acceleration else v.deceleration
      max 0 (min (v.speed + sgn speedDiff * accel * dt) v.maxSpeed)
    else v.speed
  let pathIndex :=
    if v.pathIndex < v.path.length - 1 ∧ 0.1 < speed then
      if reached then v.pathIndex + 1 else v.pathIndex
    else v.pathIndex
  { targetSpeed := targetSpeed, speed := speed, pathIndex := pathIndex,
    isWaiting := if speed < 0.1 then true else false,
    waitTime := if speed < 0.1 then v.waitTime + dt else v.waitTime,
    co2Emitted :=
      if speed < 0.1 then v.co2Emitted + 0.2 * dt else v.co2Emitted }

/-- One step of the optimized obstruction loop of part_003 (lines 594-612):
same effect logic, but it compares squared distances (`distSq < size.x²`)
in the plane coordinates `x`,`z` only and exits early once blocked. -/
def scanStepOpt (pos : V3) (acc : ℚ × Bool) (o : Obstruction) : ℚ × Bool :=
  if acc.2 then acc
  else
    let dx := pos.x - o.position.x
    let dz := pos.z - o.position.z
    if dx * dx + dz * dz < o.size.x * o.size.x then
      if o.effect.blocked then (acc.1, true)
      else (acc.1 * (1 - o.effect.speedReduction), acc.2)
    else acc

/-- The optimized obstruction scan of part_003. -/
def obstructionScanOpt (obstructions : List Obstruction) (pos : V3) : ℚ × Bool :=
  obstructions.foldl (scanStepOpt pos) (1, false)

/-- Planar squared distance from the vehicle to its next waypoint, as
computed by part_003 lines 633-635 (`dx*dx + dz*dz`). -/
def nextGapSq (v : Vehicle) : ℚ :=
  let target := v.path.getD (v.pathIndex + 1) v.position
  let dx := target.x - v.position.x
  let dz := target.z - v.position.z
  dx * dx + dz * dz

/-- Embedding of part_003 `updateVehiclePhysics` (lines 582-675), the
optimized engine: early-exit obstruction scan, 10% smoothing blend,
clamped speed change (threshold `0.02`), waypoint advance when the
remaining planar distance is not above `0.5` (the test `dist > 0.5` of
line 637 decides movement; otherwise the index advances), and the
wait-time accrual/decay block of lines 663-672. -/
def updateVehiclePhysicsOpt (obstructions : List Obstruction) (v : Vehicle)
    (dt : ℚ) : KinematicsResult :=
  let scan := obstructionScanOpt obstructions v.position
  let target := if scan.2 then 0 else v.maxSpeed * scan.1
  let targetSpeed := target * 0.1 + v.targetSpeed * 0.9
  let speedDiff := targetSpeed - v.speed
  let speed :=
    if 0.02 < |speedDiff| then
      let accel := if 0 < speedDiff then v.acceleration else v.deceleration
      max 0 (min (v.speed + sgn speedDiff * accel * dt) v.maxSpeed)
    else v.speed
  let pathIndex :=
    if v.pathIndex < v.path.length - 1 ∧ 0.02 < speed then
      if sqrtGtB (nextGapSq v) 0.5 then v.pathIndex else v.pathIndex + 1
    else v.pathIndex
  { targetSpeed := targetSpeed, speed := speed, pathIndex := pathIndex,
    isWaiting :=
      if speed < 0.1 then decide (1.0 < v.waitTime + dt) else false,
    waitTime :=
      if speed < 0.1 then v.waitTime + dt else max 0 (v.waitTime - dt * 0.5),
    co2Emitted :=
      if speed < 0.1 then v.co2Emitted + 0.15 * dt
      else v.co2Emitted + 0.05 * dt * speed }

/-- The A/B simulation mode of EnhancedSimulationContext.tsx. -/
inductive Mode where
  | baseline
  | solution
  | idle
deriving DecidableEq

/-- The forward-cone test of the collision scan: `dot(û, ŵ) > c` for
normalized `û`, `ŵ` and the positive constant `c = 0.7`, decided via
squares (`three.js` normalizes the zero vector to zero, so a zero vector
never passes, matching `0 < dot u w` here). -/
def unitDotGt (u w : V3) (c : ℚ) : Bool :=
  let d := u.x * w.x + u.y * w.y + u.z * w.z
  let nu := u.x * u.x + u.y * u.y + u.z * u.z
  let nw := w.x * w.x + w.y * w.y + w.z * w.z
  decide (0 < d) && decide (c * c * (nu * nw) < d * d)

/-- The collision scan of the A/B `updateVehicle` (tsx lines 339-355):
over all other vehicles, find whether some vehicle lies ahead (forward
cone `dot > 0.7`, separation `< 15`) and keep the least such separation.
The accumulator carries the squared distance of the closest vehicle ahead
(`none` plays the role of `Infinity`); comparisons between distances are
decided on squares. -/
def collisionScan (v : Vehicle) (target : V3) (allVehicles : List Vehicle) :
    Option ℚ :=
  allVehicles.foldl
    (fun acc other =>
      if other.id = v.id then acc
      else
        let dsq := distSq v.position other.position
        let closer :=
          match acc with
          | none => true
          | some best => decide (dsq < best)
        if unitDotGt
            ⟨target.x - v.position.x, target.y - v.position.y,
             target.z - v.position.z⟩
            ⟨other.position.x - v.position.x, other.position.y - v.position.y,
             other.position.z - v.position.z⟩ 0.7
            && sqrtLtB dsq 15 && closer then
          some dsq
        else acc)
    none

/-- The speed-multiplier/blocked-flag computation of the A/B
`updateVehicle` (EnhancedSimulationContext.tsx lines 338-402): collision
scan, intersection test, baseline-mode artificial delay (the draw
`Math.random() < 0.7` is the explicit input `delayRoll`, and the
wall-clock-timed flag is the input `delayActive`), obstruction scan, and
following-distance slowdown (blocked under `safetyDistance`, factor 0.3
under twice, 0.6 under three times). -/
def abAdjusted (obstructions : List Obstruction) (allVehicles : List Vehicle)
    (mode : Mode) (delayActive : Bool) (delayRoll : Bool) (v : Vehicle)
    (target : V3) : ℚ × Bool :=
  let aheadSq := collisionScan v target allVehicles
  let isAtIntersection :=
    decide (|v.position.x| < 15) && decide (|v.position.z| < 15)
  let artificialDelay :=
    decide (mode = Mode.baseline) && isAtIntersection && !delayActive
      && delayRoll
  let scan := obstructionScan obstructions v.position
  let blockedBase :=
    scan.2 || artificialDelay
      || (decide (mode = Mode.baseline) && delayActive && isAtIntersection)
  match aheadSq with
  | none => (scan.1, blockedBase)
  | some d2 =>
    if sqrtLtB d2 v.safetyDistance then (scan.1, true)
    else if sqrtLtB d2 (v.safetyDistance * 2) then
      (scan.1 * 0.3, blockedBase)
    else if sqrtLtB d2 (v.safetyDistance * 3) then
      (scan.1 * 0.6, blockedBase)
    else (scan.1, blockedBase)

/-- Embedding of the A/B `updateVehicle`
(EnhancedSimulationContext.tsx lines 329-423).  A vehicle at its final
waypoint is returned unchanged.  Otherwise: the multiplier/blocked
computation `abAdjusted`, the target speed `blocked ? 0 : maxSpeed *
multiplier`, an unclamped relaxation `speed + (target - speed) * dt * 2`,
waypoint advance on pre-move distance `< 5`, and blocked-keyed wait
accounting.  The `isWaiting` and `targetSpeed` fields are not written by
this variant (the object spread keeps the old values). -/
def updateVehicleAB (obstructions : List Obstruction)
    (allVehicles : List Vehicle) (mode : Mode) (delayActive : Bool)
    (delayRoll : Bool) (v : Vehicle) (dt : ℚ) : KinematicsResult :=
  if v.path.length - 1 ≤ v.pathIndex then
    { targetSpeed := v.targetSpeed, speed := v.speed, pathIndex := v.pathIndex,
      isWaiting := v.isWaiting, waitTime := v.waitTime,
      co2Emitted := v.co2Emitted }
  else
    let target := v.path.getD (v.pathIndex + 1) v.position
    let adjusted :=
      abAdjusted obstructions allVehicles mode delayActive delayRoll v target
    let targetSpeed := if adjusted.2 then 0 else v.maxSpeed * adjusted.1
    let newSpeed := v.speed + (targetSpeed - v.speed) * dt * 2
    let pathIndex :=
      if distLt v.position target 5 then
        min (v.pathIndex + 1) (v.path.length - 1)
      else v.pathIndex
    { targetSpeed := v.targetSpeed, speed := newSpeed, pathIndex := pathIndex,
      isWaiting := v.isWaiting,
      waitTime := if adjusted.2 then v.waitTime + dt else 0,
      co2Emitted := v.co2Emitted + newSpeed * dt * 0.001 }

/-- Embedding of the simple `updateVehicle` of part_002 (lines 307-350):
like the A/B variant but with no collision scan and no artificial delay —
obstruction scan, `targetSpeed = isBlocked ? 0 : maxSpeed *
speedMultiplier`, unclamped relaxation, waypoint advance on pre-move
distance `< 5`, blocked-keyed wait accounting. -/
def updateVehicleSimple (obstructions : List Obstruction) (v : Vehicle)
    (dt : ℚ) : KinematicsResult :=
  if v.path.length - 1 ≤ v.pathIndex then
    { targetSpeed := v.targetSpeed, speed := v.speed, pathIndex := v.pathIndex,
      isWaiting := v.isWaiting, waitTime := v.waitTime,
      co2Emitted := v.co2Emitted }
  else
    let target := v.path.getD (v.pathIndex + 1) v.position
    let targetSpeed := targetSpeedOf obstructions v.position v.maxSpeed
    let isBlocked := (obstructionScan obstructions v.position).2
    let newSpeed := v.speed + (targetSpeed - v.speed) * dt * 2
    let pathIndex :=
      if distLt v.position target 5 then
        min (v.pathIndex + 1) (v.path.length - 1)
      else v.pathIndex
    { targetSpeed := v.targetSpeed, speed := newSpeed, pathIndex := pathIndex,
      isWaiting := v.isWaiting,
      waitTime := if isBlocked then v.waitTime + dt else 0,
      co2Emitted := v.co2Emitted + newSpeed * dt * 0.001 }

/-- The metrics snapshot of part_006 (`Metrics` interface). -/
structure MetricsEnh where
  totalVehicles : ℕ
  activeVehicles : ℕ
  averageWaitTime : ℚ
  averageSpeed : ℚ
  co2Emissions : ℚ
  congestionLevel : ℚ
  throughput : ℚ
  queueNorth : ℕ
  queueSouth : ℕ
  queueEast : ℕ
  queueWest : ℕ
deriving DecidableEq

/-- Embedding of part_006 `updateMetrics` (lines 818-847).  The wall-clock
inputs of the source (`vehicleIdCounter`, `completedVehiclesRef`, the
elapsed minutes derived from `performance.now()`) are explicit arguments;
every division is guarded exactly as in the source (`activeVehicles > 0 ?
_ : 0`, `elapsedMinutes > 0 ? _ : 0`). -/
def updateMetricsEnh (vehicles : List Vehicle) (vehicleIdCounter : ℕ)
    (completedVehicles : ℕ) (elapsedMinutes : ℚ) : MetricsEnh :=
  let activeVehicles := vehicles.length
  let totalWaitTime := vehicles.foldl (fun sum v => sum + v.waitTime) 0
  let totalSpeed := vehicles.foldl (fun sum v => sum + v.speed) 0
  let totalCO2 := vehicles.foldl (fun sum v => sum + v.co2Emitted) 0
  let waitingVehicles := (vehicles.filter fun v => v.isWaiting).length
  let throughput :=
    if 0 < elapsedMinutes then (completedVehicles : ℚ) / elapsedMinutes else 0
  { totalVehicles := vehicleIdCounter
    activeVehicles := activeVehicles
    averageWaitTime :=
      if 0 < activeVehicles then totalWaitTime / (activeVehicles : ℚ) else 0
    averageSpeed :=
      if 0 < activeVehicles then totalSpeed / (activeVehicles : ℚ) else 0
    co2Emissions := totalCO2
    congestionLevel :=
      if 0 < activeVehicles then
        ((waitingVehicles : ℚ) / (activeVehicles : ℚ)) * 100
      else 0
    throughput := throughput
    queueNorth :=
      (vehicles.filter fun v => v.direction = Dir.north && v.isWaiting).length
    queueSouth :=
      (vehicles.filter fun v => v.direction = Dir.south && v.isWaiting).length
    queueEast :=
      (vehicles.filter fun v => v.direction = Dir.east && v.isWaiting).length
    queueWest :=
      (vehicles.filter fun v => v.direction = Dir.west && v.isWaiting).length }

/-- The metrics snapshot of part_000 (no throughput, no queues). -/
structure MetricsBasic where
  totalVehicles : ℕ
  activeVehicles : ℕ
  averageWaitTime : ℚ
  averageSpeed : ℚ
  co2Emissions : ℚ
  congestionLevel : ℚ
deriving DecidableEq

/-- Embedding of part_000 `updateMetrics` (lines 400-422): the average wait
is taken over the waiting vehicles only, and the congestion level is
`min(100, waiting / max(1, active) * 100)`. -/
def updateMetricsBasic (vehicles : List Vehicle) (vehicleIdCounter : ℕ) :
    MetricsBasic :=
  let waitingVehicles := vehicles.filter fun v => v.isWaiting
  let avgWaitTime :=
    if 0 < waitingVehicles.length then
      (waitingVehicles.foldl (fun sum v => sum + v.waitTime) 0) /
        (waitingVehicles.length : ℚ)
    else 0
  let avgSpeed :=
    if 0 < vehicles.length then
      (vehicles.foldl (fun sum v => sum + v.speed) 0) / (vehicles.length : ℚ)
    else 0
  { totalVehicles := vehicleIdCounter
    activeVehicles := vehicles.length
    averageWaitTime := avgWaitTime
    averageSpeed := avgSpeed
    co2Emissions := vehicles.foldl (fun sum v => sum + v.co2Emitted) 0
    congestionLevel :=
      min 100 ((waitingVehicles.length : ℚ) /
        max 1 (vehicles.length : ℚ) * 100) }

/-- Outcome of an obstruction-placement request: the (possibly extended)
obstruction list, the remaining selected tool, and whether the off-road
warning was emitted (`console.warn` in part_006, `alert` in part_000). -/
structure PlaceResult where
  obstructions : List Obstruction
  selectedTool : Option ObstructionType
  offRoadError : Bool
deriving DecidableEq

/-- The lane-validity predicate of part_006 `placeObstructionAtPosition`
(lines 1013-1024): within `laneWidth * 1.5` of one of the two road center
lines and within half the road length along it. -/
def validLane (x z : ℚ) : Bool :=
  decide (|x| < (3.25 : ℚ) * 1.5 ∧ |z| < 500 / 2)
    || decide (|z| < (3.25 : ℚ) * 1.5 ∧ |x| < 500 / 2)

/-- Embedding of part_006 `placeObstructionAtPosition` (lines 1003-1051):
an off-lane coordinate warns and changes nothing; on a lane with a tool
selected, exactly one obstruction (with the tool's fixed size/effect
table) is appended and the tool is cleared; on a lane with no tool
selected nothing happens. -/
def placeObstructionAtPosition (selectedTool : Option ObstructionType)
    (obstructions : List Obstruction) (nextId : ℕ) (x z : ℚ) : PlaceResult :=
  let nsRoad := decide (|x| < (3.25 : ℚ) * 1.5 ∧ |z| < 500 / 2)
  if !validLane x z then
    { obstructions := obstructions, selectedTool := selectedTool,
      offRoadError := true }
  else
    match selectedTool with
    | none =>
      { obstructions := obstructions, selectedTool := none,
        offRoadError := false }
    | some tool =>
      let direction :=
        if nsRoad then (if 0 < z then Dir.north else Dir.south)
        else (if 0 < x then Dir.east else Dir.west)
      let lane : ℕ :=
        if nsRoad then (if x < 0 then 0 else 1)
        else (if 0 < z then 0 else 1)
      let obstruction : Obstruction :=
        { id := nextId
          type := tool
          position := ⟨x, 0, z⟩
          size :=
            ⟨(if tool = ObstructionType.pothole then 20
              else if tool = ObstructionType.barricade then 5 else 10), 1,
             (if tool = ObstructionType.pothole then 3
              else if tool = ObstructionType.barricade then 3 else 5)⟩
          lane := lane
          direction := direction
          effect :=
            { speedReduction :=
                if tool = ObstructionType.pothole then 0.5
                else if tool = ObstructionType.vendor then 0.3 else 0
              capacityReduction :=
                if tool = ObstructionType.vendor then 0.5 else 0
              blocked := tool = ObstructionType.barricade } }
      { obstructions := obstructions ++ [obstruction], selectedTool := none,
        offRoadError := false }

/-- The road-bounds predicate of part_000 `placeObstructionAtPosition`
(lines 501-502). -/
def isOnRoad (x z : ℚ) : Bool :=
  decide (|x| < 10 ∧ |z| < 500) || decide (|z| < 10 ∧ |x| < 500)

/-- Embedding of part_000 `placeObstructionAtPosition` (lines 497-578):
without a selected tool the call returns immediately; an off-road
coordinate alerts and changes nothing; otherwise one obstruction with the
tool's fixed table is appended and the tool cleared. -/
def placeObstructionBasic (selectedTool : Option ObstructionType)
    (obstructions : List Obstruction) (nextId : ℕ) (x z : ℚ) : PlaceResult :=
  match selectedTool with
  | none =>
    { obstructions := obstructions, selectedTool := none,
      offRoadError := false }
  | some tool =>
    if !isOnRoad x z then
      { obstructions := obstructions, selectedTool := some tool,
        offRoadError := true }
    else
      let direction :=
        if |x| < 10 then (if 0 < z then Dir.north else Dir.south)
        else (if 0 < x then Dir.east else Dir.west)
      let lane : ℕ :=
        if |x| < 10 then (if x < 0 then 1 else 2)
        else (if 0 < z then 1 else 2)
      let obstruction : Obstruction :=
        { id := nextId
          type := tool
          position := ⟨x, 0.5, z⟩
          size :=
            match tool with
            | ObstructionType.pothole => ⟨20, 0.2, 5⟩
            | ObstructionType.barricade => ⟨2, 1.5, 0.5⟩
            | ObstructionType.vendor => ⟨3, 1, 2⟩
          lane := lane
          direction := direction
          effect :=
            match tool with
            | ObstructionType.pothole =>
              { speedReduction := 0.5, capacityReduction := 0, blocked := false }
            | ObstructionType.barricade =>
              { speedReduction := 0, capacityReduction := 0, blocked := true }
            | ObstructionType.vendor =>
              { speedReduction := 0.3, capacityReduction := 0.5,
                blocked := false } }
      { obstructions := obstructions ++ [obstruction], selectedTool := none,
        offRoadError := false }

/-- Embedding of the signalized-intersection branch of part_006
`generateVehiclePath` (lines 569-664; the roundabout branch, which samples
a trigonometric ring and is governed by `isRoundabout`, is outside the
signalized mode considered by the claims).  A pure function of entry
direction and turn intent. -/
def generateVehiclePath (direction : Dir) (targetDirection : Turn) :
    List V3 :=
  let laneWidth : ℚ := 3.25
  let roadLength : ℚ := 500
  let intersectionSize : ℚ := 30
  match direction, targetDirection with
  | Dir.north, Turn.straight =>
    [⟨-laneWidth, 0, roadLength / 2⟩, ⟨-laneWidth, 0, intersectionSize / 2⟩,
     ⟨-laneWidth, 0, -intersectionSize / 2⟩, ⟨-laneWidth, 0, -roadLength / 2⟩]
  | Dir.north, Turn.right =>
    [⟨-laneWidth, 0, roadLength / 2⟩, ⟨-laneWidth, 0, intersectionSize / 2⟩,
     ⟨-laneWidth, 0, 0⟩, ⟨-laneWidth - 5, 0, 0⟩,
     ⟨-intersectionSize / 2 - 5, 0, laneWidth + 5⟩,
     ⟨-intersectionSize / 2, 0, laneWidth⟩, ⟨-roadLength / 2, 0, laneWidth⟩]
  | Dir.north, Turn.left =>
    [⟨-laneWidth, 0, roadLength / 2⟩, ⟨-laneWidth, 0, intersectionSize / 2⟩,
     ⟨-laneWidth, 0, 0⟩, ⟨-laneWidth + 5, 0, 0⟩,
     ⟨intersectionSize / 2 + 5, 0, -laneWidth - 5⟩,
     ⟨intersectionSize / 2, 0, -laneWidth⟩, ⟨roadLength / 2, 0, -laneWidth⟩]
  | Dir.south, Turn.straight =>
    [⟨laneWidth, 0, -roadLength / 2⟩, ⟨laneWidth, 0, -intersectionSize / 2⟩,
     ⟨laneWidth, 0, intersectionSize / 2⟩, ⟨laneWidth, 0, roadLength / 2⟩]
  | Dir.south, Turn.right =>
    [⟨laneWidth, 0, -roadLength / 2⟩, ⟨laneWidth, 0, -intersectionSize / 2⟩,
     ⟨laneWidth, 0, 0⟩, ⟨laneWidth + 5, 0, 0⟩,
     ⟨intersectionSize / 2 + 5, 0, -laneWidth - 5⟩,
     ⟨intersectionSize / 2, 0, -laneWidth⟩, ⟨roadLength / 2, 0, -laneWidth⟩]
  | Dir.south, Turn.left =>
    [⟨laneWidth, 0, -roadLength / 2⟩, ⟨laneWidth, 0, -intersectionSize / 2⟩,
     ⟨laneWidth, 0, 0⟩, ⟨laneWidth - 5, 0, 0⟩,
     ⟨-intersectionSize / 2 - 5, 0, laneWidth + 5⟩,
     ⟨-intersectionSize / 2, 0, laneWidth⟩, ⟨-roadLength / 2, 0, laneWidth⟩]
  | Dir.east, Turn.straight =>
    [⟨roadLength / 2, 0, laneWidth⟩, ⟨intersectionSize / 2, 0, laneWidth⟩,
     ⟨-intersectionSize / 2, 0, laneWidth⟩, ⟨-roadLength / 2, 0, laneWidth⟩]
  | Dir.east, Turn.right =>
    [⟨roadLength / 2, 0, laneWidth⟩, ⟨intersectionSize / 2, 0, laneWidth⟩,
     ⟨0, 0, laneWidth⟩, ⟨0, 0, laneWidth + 5⟩,
     ⟨-laneWidth - 5, 0, intersectionSize / 2 + 5⟩,
     ⟨-laneWidth, 0, intersectionSize / 2⟩, ⟨-laneWidth, 0, roadLength / 2⟩]
  | Dir.east, Turn.left =>
    [⟨roadLength / 2, 0, laneWidth⟩, ⟨intersectionSize / 2, 0, laneWidth⟩,
     ⟨0, 0, laneWidth⟩, ⟨0, 0, laneWidth - 5⟩,
     ⟨laneWidth + 5, 0, -intersectionSize / 2 - 5⟩,
     ⟨laneWidth, 0, -intersectionSize / 2⟩, ⟨laneWidth, 0, -roadLength / 2⟩]
  | Dir.west, Turn.straight =>
    [⟨-roadLength / 2, 0, -laneWidth⟩, ⟨-intersectionSize / 2, 0, -laneWidth⟩,
     ⟨intersectionSize / 2, 0, -laneWidth⟩, ⟨roadLength / 2, 0, -laneWidth⟩]
  | Dir.west, Turn.right =>
    [⟨-roadLength / 2, 0, -laneWidth⟩, ⟨-intersectionSize / 2, 0, -laneWidth⟩,
     ⟨0, 0, -laneWidth⟩, ⟨0, 0, -laneWidth - 5⟩,
     ⟨laneWidth + 5, 0, -intersectionSize / 2 - 5⟩,
     ⟨laneWidth, 0, -intersectionSize / 2⟩, ⟨laneWidth, 0, -roadLength / 2⟩]
  | Dir.west, Turn.left =>
    [⟨-roadLength / 2, 0, -laneWidth⟩, ⟨-intersectionSize / 2, 0, -laneWidth⟩,
     ⟨0, 0, -laneWidth⟩, ⟨0, 0, -laneWidth + 5⟩,
     ⟨-laneWidth - 5, 0, intersectionSize / 2 + 5⟩,
     ⟨-laneWidth, 0, intersectionSize / 2⟩, ⟨-laneWidth, 0, roadLength / 2⟩]

/-- Embedding of `generateVehiclePath` of EnhancedSimulationContext.tsx
(lines 194-278), the basic generator: same layout with three-point
turns. -/
def generateVehiclePathBasic (direction : Dir) (targetDirection : Turn) :
    List V3 :=
  let laneWidth : ℚ := 3.25
  let roadLength : ℚ := 500
  let intersectionSize : ℚ := 30
  match direction, targetDirection with
  | Dir.north, Turn.straight =>
    [⟨-laneWidth, 0, roadLength / 2⟩, ⟨-laneWidth, 0, intersectionSize / 2⟩,
     ⟨-laneWidth, 0, -intersectionSize / 2⟩, ⟨-laneWidth, 0, -roadLength / 2⟩]
  | Dir.north, Turn.right =>
    [⟨-laneWidth, 0, roadLength / 2⟩, ⟨-laneWidth, 0, intersectionSize / 2⟩,
     ⟨-laneWidth, 0, 0⟩, ⟨-intersectionSize / 2, 0, laneWidth⟩,
     ⟨-roadLength / 2, 0, laneWidth⟩]
  | Dir.north, Turn.left =>
    [⟨-laneWidth, 0, roadLength / 2⟩, ⟨-laneWidth, 0, intersectionSize / 2⟩,
     ⟨-laneWidth, 0, 0⟩, ⟨intersectionSize / 2, 0, -laneWidth⟩,
     ⟨roadLength / 2, 0, -laneWidth⟩]
  | Dir.south, Turn.straight =>
    [⟨laneWidth, 0, -roadLength / 2⟩, ⟨laneWidth, 0, -intersectionSize / 2⟩,
     ⟨laneWidth, 0, intersectionSize / 2⟩, ⟨laneWidth, 0, roadLength / 2⟩]
  | Dir.south, Turn.right =>
    [⟨laneWidth, 0, -roadLength / 2⟩, ⟨laneWidth, 0, -intersectionSize / 2⟩,
     ⟨laneWidth, 0, 0⟩, ⟨intersectionSize / 2, 0, -laneWidth⟩,
     ⟨roadLength / 2, 0, -laneWidth⟩]
  | Dir.south, Turn.left =>
    [⟨laneWidth, 0, -roadLength / 2⟩, ⟨laneWidth, 0, -intersectionSize / 2⟩,
     ⟨laneWidth, 0, 0⟩, ⟨-intersectionSize / 2, 0, laneWidth⟩,
     ⟨-roadLength / 2, 0, laneWidth⟩]
  | Dir.east, Turn.straight =>
    [⟨roadLength / 2, 0, laneWidth⟩, ⟨intersectionSize / 2, 0, laneWidth⟩,
     ⟨-intersectionSize / 2, 0, laneWidth⟩, ⟨-roadLength / 2, 0, laneWidth⟩]
  | Dir.east, Turn.right =>
    [⟨roadLength / 2, 0, laneWidth⟩, ⟨intersectionSize / 2, 0, laneWidth⟩,
     ⟨0, 0, laneWidth⟩, ⟨-laneWidth, 0, intersectionSize / 2⟩,
     ⟨-laneWidth, 0, roadLength / 2⟩]
  | Dir.east, Turn.left =>
    [⟨roadLength / 2, 0, laneWidth⟩, ⟨intersectionSize / 2, 0, laneWidth⟩,
     ⟨0, 0, laneWidth⟩, ⟨laneWidth, 0, -intersectionSize / 2⟩,
     ⟨laneWidth, 0, -roadLength / 2⟩]
  | Dir.west, Turn.straight =>
    [⟨-roadLength / 2, 0, -laneWidth⟩, ⟨-intersectionSize / 2, 0, -laneWidth⟩,
     ⟨intersectionSize / 2, 0, -laneWidth⟩, ⟨roadLength / 2, 0, -laneWidth⟩]
  | Dir.west, Turn.right =>
    [⟨-roadLength / 2, 0, -laneWidth⟩, ⟨-intersectionSize / 2, 0, -laneWidth⟩,
     ⟨0, 0, -laneWidth⟩, ⟨laneWidth, 0, -intersectionSize / 2⟩,
     ⟨laneWidth, 0, -roadLength / 2⟩]
  | Dir.west, Turn.left =>
    [⟨-roadLength / 2, 0, -laneWidth⟩, ⟨-intersectionSize / 2, 0, -laneWidth⟩,
     ⟨0, 0, -laneWidth⟩, ⟨-laneWidth, 0, intersectionSize / 2⟩,
     ⟨-laneWidth, 0, roadLength / 2⟩]

theorem scan_foldl_eq (pos : V3) (l : List Obstruction) :
    ∀ (m : ℚ) (b : Bool),
      l.foldl (scanStep pos) (m, b) =
        (m * specFactor l pos, b || specBlocked l pos) := by
  induction l with
  | nil =>
    intro m b
    simp [specFactor, specBlocked]
  | cons o rest ih =>
    intro m b
    by_cases hin : distLt pos o.position o.size.x = true
    · by_cases hb : o.effect.blocked = true
      · have hstep : scanStep pos (m, b) o = (m, true) := by
          simp [scanStep, hin, hb]
        simp only [List.foldl_cons, hstep, ih]
        simp [specFactor, specBlocked, List.filter_cons, hin, hb]
      · have hstep : scanStep pos (m, b) o =
            (m * (1 - o.effect.speedReduction), b) := by
          simp [scanStep, hin, hb]
        simp only [List.foldl_cons, hstep, ih]
        simp [specFactor, specBlocked, List.filter_cons, hin, hb]
        ring
    · have hstep : scanStep pos (m, b) o = (m, b) := by
        simp [scanStep, hin]
      simp only [List.foldl_cons, hstep, ih]
      simp [specFactor, specBlocked, List.filter_cons, hin]

theorem obstructionScan_eq (l : List Obstruction) (pos : V3) :
    obstructionScan l pos = (specFactor l pos, specBlocked l pos) := by
  unfold obstructionScan
  rw [scan_foldl_eq]
  simp

theorem specFactor_bounds (l : List Obstruction) (pos : V3)
    (h : ∀ o ∈ l, 0 ≤ o.effect.speedReduction ∧ o.effect.speedReduction ≤ 1) :
    0 ≤ specFactor l pos ∧ specFactor l pos ≤ 1 := by
  induction l with
  | nil => simp [specFactor]
  | cons o rest ih =>
    have hrest := ih fun x hx => h x (List.mem_cons_of_mem o hx)
    have ho := h o (List.mem_cons_self o rest)
    by_cases hp : (distLt pos o.position o.size.x && !o.effect.blocked) = true
    · have : specFactor (o :: rest) pos =
          (1 - o.effect.speedReduction) * specFactor rest pos := by
        simp [specFactor, List.filter_cons, hp]
      rw [this]
      constructor
      · have h1 : 0 ≤ 1 - o.effect.speedReduction := by linarith [ho.2]
        exact mul_nonneg h1 hrest.1
      · have h1 : 1 - o.effect.speedReduction ≤ 1 := by linarith [ho.1]
        have h2 : 0 ≤ 1 - o.effect.speedReduction := by linarith [ho.2]
        nlinarith [hrest.1, hrest.2]
    · have : specFactor (o :: rest) pos = specFactor rest pos := by
        simp [specFactor, List.filter_cons, hp]
      rw [this]
      exact hrest

/-- C4: for every vehicle position and every obstruction set, the
instantaneous target speed computed by the cited kinematics code
(part_006 lines 724-741 and part_002 lines 316-332) is 0 when some
obstruction with `blocked = true` contains the position in its influence
radius, and otherwise `maxSpeed` times the product of
`1 - speedReduction` over all non-blocking obstructions containing the
position (overlapping non-blocking obstructions compound
multiplicatively).  The second conjunct ties the formula to the enhanced
engine's smoothed `targetSpeed` output, the third to the simple engine's
speed relaxation. -/
theorem target_speed_formula :
    (∀ (obstructions : List Obstruction) (pos : V3) (maxSpeed : ℚ),
        targetSpeedOf obstructions pos maxSpeed =
          if specBlocked obstructions pos then 0
          else maxSpeed * specFactor obstructions pos) ∧
    (∀ (obstructions : List Obstruction) (v : Vehicle) (reached : Bool)
        (dt : ℚ),
        (updateVehiclePhysics obstructions v reached dt).targetSpeed =
          0.15 * targetSpeedOf obstructions v.position v.maxSpeed +
            0.85 * v.targetSpeed) ∧
    (∀ (obstructions : List Obstruction) (v : Vehicle) (dt : ℚ),
        v.pathIndex + 1 < v.path.length →
        (updateVehicleSimple obstructions v dt).speed =
          v.speed +
            (targetSpeedOf obstructions v.position v.maxSpeed - v.speed)
              * dt * 2) := by
  refine ⟨?_, ?_, ?_⟩
  · intro obstructions pos maxSpeed
    unfold targetSpeedOf
    rw [obstructionScan_eq]
  · intro obstructions v reached dt
    rfl
  · intro obstructions v dt hlive
    unfold updateVehicleSimple
    have hcond : ¬ (v.path.length - 1 ≤ v.pathIndex) := by omega
    rw [if_neg hcond]

/-- Witness for `target_speed_formula` at a concrete vehicle and a
concrete pothole obstruction. -/
theorem target_speed_formula_witness :
    (let v : Vehicle :=
      { id := 0, position := ⟨0, 0, 0⟩, speed := 3, targetSpeed := 3,
        maxSpeed := 10, acceleration := 2, deceleration := 4,
        safetyDistance := 2, direction := Dir.north,
        path := [⟨0, 0, 0⟩, ⟨100, 0, 0⟩], pathIndex := 0, isWaiting := false,
        waitTime := 0, co2Emitted := 0 }
     (0 : ℕ) + 1 < v.path.length ∧
       (updateVehicleSimple [] v 1).speed =
         v.speed + (targetSpeedOf [] v.position v.maxSpeed - v.speed)
           * 1 * 2) := by
  refine ⟨by norm_num, ?_⟩
  exact target_speed_formula.2.2 [] _ 1 (by norm_num)

theorem abAdjusted_fst_bounds (obstructions : List Obstruction)
    (allVehicles : List Vehicle) (mode : Mode) (dA dR : Bool) (v : Vehicle)
    (target : V3)
    (h : ∀ o ∈ obstructions,
        0 ≤ o.effect.speedReduction ∧ o.effect.speedReduction ≤ 1) :
    0 ≤ (abAdjusted obstructions allVehicles mode dA dR v target).1 ∧
      (abAdjusted obstructions allVehicles mode dA dR v target).1 ≤ 1 := by
  have hsf := specFactor_bounds obstructions v.position h
  unfold abAdjusted
  rw [obstructionScan_eq]
  cases collisionScan v target allVehicles with
  | none => simpa using hsf
  | some d2 =>
    dsimp only
    split_ifs <;> constructor <;> nlinarith [hsf.1, hsf.2]

theorem relax_bounds (s t M dt : ℚ) (hs0 : 0 ≤ s) (hsM : s ≤ M)
    (ht0 : 0 ≤ t) (htM : t ≤ M) (hdt0 : 0 ≤ dt) (hdt1 : dt ≤ 1 / 2) :
    0 ≤ s + (t - s) * dt * 2 ∧ s + (t - s) * dt * 2 ≤ M := by
  have h12 : 0 ≤ 1 - dt * 2 := by linarith
  have e1 : 0 ≤ s * (1 - dt * 2) := mul_nonneg hs0 h12
  have e2 : 0 ≤ t * (dt * 2) := mul_nonneg ht0 (by linarith)
  have e3 : 0 ≤ (M - s) * (1 - dt * 2) := mul_nonneg (by linarith) h12
  have e4 : 0 ≤ (M - t) * (dt * 2) := mul_nonneg (by linarith) (by linarith)
  constructor <;> nlinarith [e1, e2, e3, e4]

theorem updateVehicleAB_speed_live (obstructions : List Obstruction)
    (allVehicles : List Vehicle) (mode : Mode) (dA dR : Bool) (v : Vehicle)
    (dt : ℚ) (hlive : ¬ (v.path.length - 1 ≤ v.pathIndex)) :
    (updateVehicleAB obstructions allVehicles mode dA dR v dt).speed =
      v.speed +
        ((if (abAdjusted obstructions allVehicles mode dA dR v
              (v.path.getD (v.pathIndex + 1) v.position)).2 then 0
          else v.maxSpeed *
            (abAdjusted obstructions allVehicles mode dA dR v
              (v.path.getD (v.pathIndex + 1) v.position)).1) - v.speed)
          * dt * 2 := by
  unfold updateVehicleAB
  rw [if_neg hlive]

theorem updateVehicleAB_pathIndex_live (obstructions : List Obstruction)
    (allVehicles : List Vehicle) (mode : Mode) (dA dR : Bool) (v : Vehicle)
    (dt : ℚ) (hlive : ¬ (v.path.length - 1 ≤ v.pathIndex)) :
    (updateVehicleAB obstructions allVehicles mode dA dR v dt).pathIndex =
      if distLt v.position (v.path.getD (v.pathIndex + 1) v.position) 5 then
        min (v.pathIndex + 1) (v.path.length - 1)
      else v.pathIndex := by
  unfold updateVehicleAB
  rw [if_neg hlive]

/-- C2 (amended): the enhanced engine (part_006 `updateVehiclePhysics`)
keeps the updated speed inside `[0, maxSpeed]` for every non-negative
`dt`, given the vehicle entered the tick inside the range (spawn gives
speed 0); the A/B engine (`updateVehicle` of
EnhancedSimulationContext.tsx), which applies no clamp, keeps the range
provided additionally each obstruction's `speedReduction` lies in
`[0, 1]` and `dt ≤ 0.5` — for larger `dt` its relaxation step overshoots
(see the counterexample). -/
theorem speed_bound_amended :
    (∀ (obstructions : List Obstruction) (v : Vehicle) (reached : Bool)
        (dt : ℚ),
        0 ≤ dt → 0 ≤ v.speed → v.speed ≤ v.maxSpeed →
        0 ≤ (updateVehiclePhysics obstructions v reached dt).speed ∧
          (updateVehiclePhysics obstructions v reached dt).speed ≤
            v.maxSpeed) ∧
    (∀ (obstructions : List Obstruction) (allVehicles : List Vehicle)
        (mode : Mode) (delayActive delayRoll : Bool) (v : Vehicle) (dt : ℚ),
        0 ≤ dt → dt ≤ 1 / 2 →
        (∀ o ∈ obstructions,
            0 ≤ o.effect.speedReduction ∧ o.effect.speedReduction ≤ 1) →
        0 ≤ v.speed → v.speed ≤ v.maxSpeed →
        0 ≤ (updateVehicleAB obstructions allVehicles mode delayActive
              delayRoll v dt).speed ∧
          (updateVehicleAB obstructions allVehicles mode delayActive
            delayRoll v dt).speed ≤ v.maxSpeed) := by
  constructor
  · intro obstructions v reached dt _ h0 hM
    have hMax : (0 : ℚ) ≤ v.maxSpeed := le_trans h0 hM
    have key : ∀ (c : Prop) (inst : Decidable c) (x : ℚ),
        0 ≤ (if c then max 0 (min x v.maxSpeed) else v.speed) ∧
          (if c then max 0 (min x v.maxSpeed) else v.speed) ≤ v.maxSpeed := by
      intro c inst x
      split_ifs
      · exact ⟨le_max_left _ _, max_le hMax (min_le_right _ _)⟩
      · exact ⟨h0, hM⟩
    exact key _ _ _
  · intro obstructions allVehicles mode dA dR v dt hdt0 hdt1 hred h0 hM
    have hMax : (0 : ℚ) ≤ v.maxSpeed := le_trans h0 hM
    by_cases hret : v.path.length - 1 ≤ v.pathIndex
    · have hsp : (updateVehicleAB obstructions allVehicles mode dA dR
          v dt).speed = v.speed := by
        unfold updateVehicleAB
        rw [if_pos hret]
      rw [hsp]
      exact ⟨h0, hM⟩
    · rw [updateVehicleAB_speed_live obstructions allVehicles mode dA dR v dt
        hret]
      have hab := abAdjusted_fst_bounds obstructions allVehicles mode dA dR v
        (v.path.getD (v.pathIndex + 1) v.position) hred
      have ht0 : 0 ≤ (if (abAdjusted obstructions allVehicles mode dA dR v
          (v.path.getD (v.pathIndex + 1) v.position)).2 then (0 : ℚ)
          else v.maxSpeed * (abAdjusted obstructions allVehicles mode dA dR v
            (v.path.getD (v.pathIndex + 1) v.position)).1) := by
        split_ifs
        · exact le_refl 0
        · exact mul_nonneg hMax hab.1
      have htM : (if (abAdjusted obstructions allVehicles mode dA dR v
          (v.path.getD (v.pathIndex + 1) v.position)).2 then (0 : ℚ)
          else v.maxSpeed * (abAdjusted obstructions allVehicles mode dA dR v
            (v.path.getD (v.pathIndex + 1) v.position)).1) ≤ v.maxSpeed := by
        split_ifs
        · exact hMax
        · exact mul_le_of_le_one_right hMax hab.2
      exact relax_bounds v.speed _ v.maxSpeed dt h0 hM ht0 htM hdt0 hdt1

/-- Witness for `speed_bound_amended` at a concrete car. -/
theorem speed_bound_amended_witness :
    (let v : Vehicle :=
      { id := 0, position := ⟨0, 0, 0⟩, speed := 0, targetSpeed := 13.9,
        maxSpeed := 13.9, acceleration := 2.5, deceleration := 4.5,
        safetyDistance := 2, direction := Dir.north,
        path := [⟨0, 0, 0⟩, ⟨100, 0, 0⟩], pathIndex := 0, isWaiting := false,
        waitTime := 0, co2Emitted := 0 }
     (0 ≤ (updateVehiclePhysics [] v true 1).speed ∧
        (updateVehiclePhysics [] v true 1).speed ≤ v.maxSpeed) ∧
       (0 ≤ (updateVehicleAB [] [] Mode.solution false false v
              (1 / 2)).speed ∧
         (updateVehicleAB [] [] Mode.solution false false v
           (1 / 2)).speed ≤ v.maxSpeed)) := by
  constructor
  · exact speed_bound_amended.1 [] _ true 1 (by norm_num) (by norm_num)
      (by norm_num)
  · exact speed_bound_amended.2 [] [] Mode.solution false false _ (1 / 2)
      (by norm_num) (by norm_num) (by simp) (by norm_num) (by norm_num)

/-- C2 counterexample: with the A/B engine and a tick of one second, a car
starting at rest with `maxSpeed = 1`, no obstructions and no other
vehicles ends the tick at speed 2, above its class maximum — the claim's
unrestricted "any non-negative dt" fails on this cited update. -/
theorem speed_bound_cex :
    (let v : Vehicle :=
      { id := 0, position := ⟨0, 0, 0⟩, speed := 0, targetSpeed := 1,
        maxSpeed := 1, acceleration := 2.5, deceleration := 4.5,
        safetyDistance := 2, direction := Dir.north,
        path := [⟨0, 0, 0⟩, ⟨100, 0, 0⟩], pathIndex := 0, isWaiting := false,
        waitTime := 0, co2Emitted := 0 }
     0 ≤ v.speed ∧ v.speed ≤ v.maxSpeed ∧ (0 : ℚ) ≤ 1 ∧
       (updateVehicleAB [] [v] Mode.solution false false v 1).speed = 2 ∧
       ¬ ((updateVehicleAB [] [v] Mode.solution false false v 1).speed ≤
            v.maxSpeed)) := by
  refine ⟨by norm_num, by norm_num, by norm_num, ?_, ?_⟩ <;>
    norm_num [updateVehicleAB, abAdjusted, collisionScan, obstructionScan,
      distLt, sqrtLtB, distSq, List.getD]

/-- C3: for every live vehicle (waypoint index strictly before the final
path index), one tick of either cited kinematics update leaves the
waypoint index unchanged or advances it by exactly one, never decreases
it, and never pushes it past the final index of the path. -/
theorem waypoint_monotonicity :
    (∀ (obstructions : List Obstruction) (v : Vehicle) (reached : Bool)
        (dt : ℚ),
        v.pathIndex + 1 < v.path.length →
        ((updateVehiclePhysics obstructions v reached dt).pathIndex =
            v.pathIndex ∨
          (updateVehiclePhysics obstructions v reached dt).pathIndex =
            v.pathIndex + 1) ∧
          v.pathIndex ≤
            (updateVehiclePhysics obstructions v reached dt).pathIndex ∧
          (updateVehiclePhysics obstructions v reached dt).pathIndex + 1 ≤
            v.path.length) ∧
    (∀ (obstructions : List Obstruction) (allVehicles : List Vehicle)
        (mode : Mode) (delayActive delayRoll : Bool) (v : Vehicle) (dt : ℚ),
        v.pathIndex + 1 < v.path.length →
        ((updateVehicleAB obstructions allVehicles mode delayActive delayRoll
              v dt).pathIndex = v.pathIndex ∨
          (updateVehicleAB obstructions allVehicles mode delayActive delayRoll
              v dt).pathIndex = v.pathIndex + 1) ∧
          v.pathIndex ≤ (updateVehicleAB obstructions allVehicles mode
            delayActive delayRoll v dt).pathIndex ∧
          (updateVehicleAB obstructions allVehicles mode delayActive delayRoll
              v dt).pathIndex + 1 ≤ v.path.length) := by
  constructor
  · intro obstructions v reached dt hlive
    have hp : (updateVehiclePhysics obstructions v reached dt).pathIndex =
        if v.pathIndex < v.path.length - 1 ∧
            0.1 < (updateVehiclePhysics obstructions v reached dt).speed then
          (if reached then v.pathIndex + 1 else v.pathIndex)
        else v.pathIndex := rfl
    rw [hp]
    split_ifs with h1 h2
    · have := h1.1
      omega
    · omega
    · omega
  · intro obstructions allVehicles mode dA dR v dt hlive
    have hret : ¬ (v.path.length - 1 ≤ v.pathIndex) := by omega
    rw [updateVehicleAB_pathIndex_live obstructions allVehicles mode dA dR v
      dt hret]
    split_ifs
    · omega
    · omega

/-- Witness for `waypoint_monotonicity` at a concrete live vehicle. -/
theorem waypoint_monotonicity_witness :
    (let v : Vehicle :=
      { id := 0, position := ⟨0, 0, 0⟩, speed := 5, targetSpeed := 5,
        maxSpeed := 10, acceleration := 2, deceleration := 4,
        safetyDistance := 2, direction := Dir.north,
        path := [⟨0, 0, 0⟩, ⟨100, 0, 0⟩], pathIndex := 0, isWaiting := false,
        waitTime := 0, co2Emitted := 0 }
     v.pathIndex + 1 < v.path.length ∧
       ((updateVehiclePhysics [] v true 1).pathIndex = v.pathIndex ∨
         (updateVehiclePhysics [] v true 1).pathIndex = v.pathIndex + 1) ∧
       ((updateVehicleAB [] [] Mode.idle false false v 1).pathIndex =
           v.pathIndex ∨
         (updateVehicleAB [] [] Mode.idle false false v 1).pathIndex =
           v.pathIndex + 1)) := by
  refine ⟨by norm_num, ?_, ?_⟩
  · exact (waypoint_monotonicity.1 [] _ true 1 (by norm_num)).1
  · exact (waypoint_monotonicity.2 [] [] Mode.idle false false _ 1
      (by norm_num)).1

theorem updateTrafficSignal_no_both_green (s : TrafficSignal) (dt : ℚ)
    (h : ¬ (s.northSouth = Color.green ∧ s.eastWest = Color.green)) :
    ¬ ((updateTrafficSignal s dt).northSouth = Color.green ∧
        (updateTrafficSignal s dt).eastWest = Color.green) := by
  simp only [updateTrafficSignal]
  split_ifs <;> simp_all

theorem updateSignalAB_no_both_green (s : SignalAB) (dt : ℚ)
    (h : ¬ (s.northSouth = Color.green ∧ s.eastWest = Color.green)) :
    ¬ ((updateSignalAB s dt).northSouth = Color.green ∧
        (updateSignalAB s dt).eastWest = Color.green) := by
  simp only [updateSignalAB]
  split_ifs <;> simp_all
  omega

/-- C1: in every signal state reachable from the initial state by repeated
ticks with non-negative `dt` — in the five-phase controller of part_006 as
well as in the four-phase controller of EnhancedSimulationContext.tsx —
the north-south and east-west colors are never both green. -/
theorem signal_mutual_exclusion :
    (∀ s : TrafficSignal, SigReachable s →
        ¬ (s.northSouth = Color.green ∧ s.eastWest = Color.green)) ∧
    (∀ s : SignalAB, SigReachableAB s →
        ¬ (s.northSouth = Color.green ∧ s.eastWest = Color.green)) := by
  constructor
  · intro s h
    induction h with
    | base => simp [initialSignal, s0Full]
    | step s' dt _ _ ih => exact updateTrafficSignal_no_both_green s' dt ih
  · intro s h
    induction h with
    | base => simp [initialSignalAB]
    | step s' dt _ _ ih => exact updateSignalAB_no_both_green s' dt ih

/-- Witness for `signal_mutual_exclusion` at the two initial states. -/
theorem signal_mutual_exclusion_witness :
    ¬ (initialSignal.northSouth = Color.green ∧
        initialSignal.eastWest = Color.green) ∧
      ¬ (initialSignalAB.northSouth = Color.green ∧
          initialSignalAB.eastWest = Color.green) :=
  ⟨signal_mutual_exclusion.1 initialSignal SigReachable.base,
   signal_mutual_exclusion.2 initialSignalAB SigReachableAB.base⟩

/-- Sum of the five configured phase durations. -/
def cycleTotal (c : SigCycle) : ℚ :=
  c.nsGreen + c.nsYellow + c.allRed + c.ewGreen + c.ewYellow

/-- A tick sequence never overshoots: each tick's `dt` is non-negative and
at most the countdown standing when it is applied (so no phase time is
discarded by the reset-to-full-duration transition). -/
def NoOvershoot : TrafficSignal → List ℚ → Prop
  | _, [] => True
  | s, dt :: rest =>
      0 ≤ dt ∧ dt ≤ s.timeRemaining ∧
        NoOvershoot (updateTrafficSignal s dt) rest

/-- Remaining phase durations of the cycle strictly after the phase given
by a color pair. -/
def phaseTail (c : SigCycle) : Color → Color → ℚ
  | Color.green, _ => c.nsYellow + c.allRed + c.ewGreen + c.ewYellow
  | Color.yellow, _ => c.allRed + c.ewGreen + c.ewYellow
  | Color.red, Color.red => c.ewGreen + c.ewYellow
  | Color.red, Color.green => c.ewYellow
  | Color.red, Color.yellow => 0

/-- Time left until the cycle next re-enters S0 with a full countdown. -/
def togo (s : TrafficSignal) : ℚ :=
  s.timeRemaining + phaseTail s.cycle s.northSouth s.eastWest

/-- A signal state in mid-cycle: duration table `c`, positive countdown,
colors in one of the five phases. -/
def ValidPhase (c : SigCycle) (s : TrafficSignal) : Prop :=
  s.cycle = c ∧ s.isOptimized = false ∧ 0 < s.timeRemaining ∧
    ((s.northSouth = Color.green ∧ s.eastWest = Color.red) ∨
     (s.northSouth = Color.yellow ∧ s.eastWest = Color.red) ∨
     (s.northSouth = Color.red ∧ s.eastWest = Color.red) ∨
     (s.northSouth = Color.red ∧ s.eastWest = Color.green) ∨
     (s.northSouth = Color.red ∧ s.eastWest = Color.yellow))

theorem noOvershoot_nonneg :
    ∀ (dts : List ℚ) (s : TrafficSignal), NoOvershoot s dts →
      ∀ q ∈ dts, 0 ≤ q := by
  intro dts
  induction dts with
  | nil =>
    intro s _ q hq
    cases hq
  | cons dt rest ih =>
    intro s h q hq
    obtain ⟨h0, _, hrest⟩ := h
    rcases List.mem_cons.mp hq with rfl | hq'
    · exact h0
    · exact ih _ hrest q hq'

theorem tickSeq_zero_sum :
    ∀ (dts : List ℚ) (s : TrafficSignal), 0 < s.timeRemaining →
      NoOvershoot s dts → dts.sum = 0 → tickSeq s dts = s := by
  intro dts
  induction dts with
  | nil =>
    intro s _ _ _
    rfl
  | cons dt rest ih =>
    intro s hpos hno hsum
    obtain ⟨h0, _, hrest⟩ := hno
    have hnn : 0 ≤ rest.sum :=
      List.sum_nonneg fun q hq => noOvershoot_nonneg rest _ hrest q hq
    have hsum' : dt + rest.sum = 0 := by simpa using hsum
    have hdt : dt = 0 := by linarith
    subst hdt
    have hupd : updateTrafficSignal s 0 = s := by
      simp only [updateTrafficSignal]
      rw [if_neg (by rw [sub_zero]; exact not_le.mpr hpos)]
      simp
    have hstep : tickSeq s (0 :: rest) =
        tickSeq (updateTrafficSignal s 0) rest := rfl
    rw [hstep, hupd]
    exact ih s hpos (by rwa [hupd] at hrest) (by linarith)

theorem tick_hit_green (s : TrafficSignal) (dt : ℚ)
    (h : s.timeRemaining - dt ≤ 0) (hns : s.northSouth = Color.green) :
    updateTrafficSignal s dt =
      { s with northSouth := Color.yellow, eastWest := Color.red,
               timeRemaining := s.cycle.nsYellow } := by
  simp only [updateTrafficSignal]
  rw [if_pos h, if_pos hns]

theorem tick_hit_yellow (s : TrafficSignal) (dt : ℚ)
    (h : s.timeRemaining - dt ≤ 0) (hns : s.northSouth = Color.yellow) :
    updateTrafficSignal s dt =
      { s with northSouth := Color.red, eastWest := Color.red,
               timeRemaining := s.cycle.allRed } := by
  simp only [updateTrafficSignal]
  rw [if_pos h, if_neg (by simp [hns]), if_pos hns]

theorem tick_hit_redred (s : TrafficSignal) (dt : ℚ)
    (h : s.timeRemaining - dt ≤ 0) (hns : s.northSouth = Color.red)
    (hew : s.eastWest = Color.red) :
    updateTrafficSignal s dt =
      { s with northSouth := Color.red, eastWest := Color.green,
               timeRemaining := s.cycle.ewGreen } := by
  simp only [updateTrafficSignal]
  rw [if_pos h, if_neg (by simp [hns]), if_neg (by simp [hns]),
    if_pos ⟨hew, hns⟩]

theorem tick_hit_ewgreen (s : TrafficSignal) (dt : ℚ)
    (h : s.timeRemaining - dt ≤ 0) (hns : s.northSouth = Color.red)
    (hew : s.eastWest = Color.green) :
    updateTrafficSignal s dt =
      { s with northSouth := Color.red, eastWest := Color.yellow,
               timeRemaining := s.cycle.ewYellow } := by
  simp only [updateTrafficSignal]
  rw [if_pos h, if_neg (by simp [hns]), if_neg (by simp [hns]),
    if_neg (by simp [hew]), if_pos hew]

theorem tick_hit_ewyellow (s : TrafficSignal) (dt : ℚ)
    (h : s.timeRemaining - dt ≤ 0) (hns : s.northSouth = Color.red)
    (hew : s.eastWest = Color.yellow) :
    updateTrafficSignal s dt =
      { s with northSouth := Color.green, eastWest := Color.red,
               timeRemaining := s.cycle.nsGreen } := by
  simp only [updateTrafficSignal]
  rw [if_pos h, if_neg (by simp [hns]), if_neg (by simp [hns]),
    if_neg (by simp [hew]), if_neg (by simp [hew]), if_pos hew]

theorem tickSeq_togo :
    ∀ (dts : List ℚ) (c : SigCycle) (s : TrafficSignal),
      (0 < c.nsGreen ∧ 0 < c.nsYellow ∧ 0 < c.allRed ∧ 0 < c.ewGreen ∧
        0 < c.ewYellow) →
      ValidPhase c s → NoOvershoot s dts → dts.sum = togo s →
      tickSeq s dts = s0Full c := by
  intro dts
  induction dts with
  | nil =>
    intro c s hc hv hno hsum
    exfalso
    obtain ⟨hcyc, hopt, hpos, hcolors⟩ := hv
    obtain ⟨p1, p2, p3, p4, p5⟩ := hc
    have hsum0 : (0 : ℚ) = togo s := by simpa using hsum
    unfold togo at hsum0
    rcases hcolors with ⟨hns, hew⟩ | ⟨hns, hew⟩ | ⟨hns, hew⟩ | ⟨hns, hew⟩ |
      ⟨hns, hew⟩ <;>
      rw [hns, hew, hcyc] at hsum0 <;> simp [phaseTail] at hsum0 <;> linarith
  | cons dt rest ih =>
    intro c s hc hv hno hsum
    obtain ⟨hdt0, hdtle, hrest⟩ := hno
    obtain ⟨hcyc, hopt, hpos, hcolors⟩ := hv
    have hstep : tickSeq s (dt :: rest) =
        tickSeq (updateTrafficSignal s dt) rest := rfl
    have hsum' : dt + rest.sum = togo s := by simpa using hsum
    rcases lt_or_eq_of_le hdtle with hlt | heq
    · have hupd : updateTrafficSignal s dt =
          { s with timeRemaining := s.timeRemaining - dt } := by
        simp only [updateTrafficSignal]
        rw [if_neg (by linarith)]
      rw [hstep, hupd]
      apply ih c _ hc
      · exact ⟨hcyc, hopt, by simp; linarith, hcolors⟩
      · rwa [hupd] at hrest
      · unfold togo at hsum' ⊢
        simp only
        linarith
    · have hhit : s.timeRemaining - dt ≤ 0 := by rw [← heq]; simp
      rcases hcolors with ⟨hns, hew⟩ | ⟨hns, hew⟩ | ⟨hns, hew⟩ | ⟨hns, hew⟩ |
        ⟨hns, hew⟩
      · have hupd := tick_hit_green s dt hhit hns
        rw [hstep, hupd]
        apply ih c _ hc
        · exact ⟨hcyc, hopt, by simp [hcyc, hc.2.1], Or.inr (Or.inl ⟨rfl, rfl⟩)⟩
        · rwa [hupd] at hrest
        · have hts : togo s = s.timeRemaining +
              (c.nsYellow + c.allRed + c.ewGreen + c.ewYellow) := by
            unfold togo
            rw [hns, hew, hcyc]
            rfl
          unfold togo
          simp only [hcyc]
          simp [phaseTail]
          rw [hts] at hsum'
          linarith
      · have hupd := tick_hit_yellow s dt hhit hns
        rw [hstep, hupd]
        apply ih c _ hc
        · exact ⟨hcyc, hopt, by simp [hcyc, hc.2.2.1],
            Or.inr (Or.inr (Or.inl ⟨rfl, rfl⟩))⟩
        · rwa [hupd] at hrest
        · have hts : togo s = s.timeRemaining +
              (c.allRed + c.ewGreen + c.ewYellow) := by
            unfold togo
            rw [hns, hew, hcyc]
            rfl
          unfold togo
          simp only [hcyc]
          simp [phaseTail]
          rw [hts] at hsum'
          linarith
      · have hupd := tick_hit_redred s dt hhit hns hew
        rw [hstep, hupd]
        apply ih c _ hc
        · exact ⟨hcyc, hopt, by simp [hcyc, hc.2.2.2.1],
            Or.inr (Or.inr (Or.inr (Or.inl ⟨rfl, rfl⟩)))⟩
        · rwa [hupd] at hrest
        · have hts : togo s = s.timeRemaining + (c.ewGreen + c.ewYellow) := by
            unfold togo
            rw [hns, hew, hcyc]
            rfl
          unfold togo
          simp only [hcyc]
          simp [phaseTail]
          rw [hts] at hsum'
          linarith
      · have hupd := tick_hit_ewgreen s dt hhit hns hew
        rw [hstep, hupd]
        apply ih c _ hc
        · exact ⟨hcyc, hopt, by simp [hcyc, hc.2.2.2.2],
            Or.inr (Or.inr (Or.inr (Or.inr ⟨rfl, rfl⟩)))⟩
        · rwa [hupd] at hrest
        · have hts : togo s = s.timeRemaining + c.ewYellow := by
            unfold togo
            rw [hns, hew, hcyc]
            rfl
          unfold togo
          simp only [hcyc]
          simp [phaseTail]
          rw [hts] at hsum'
          linarith
      · have hupd := tick_hit_ewyellow s dt hhit hns hew
        have hfull : updateTrafficSignal s dt = s0Full c := by
          rw [hupd]
          cases s
          simp_all [s0Full]
        rw [hstep, hfull]
        have hts : togo s = s.timeRemaining := by
          unfold togo
          rw [hns, hew, hcyc]
          simp [phaseTail]
        have hrest0 : rest.sum = 0 := by
          rw [hts] at hsum'
          linarith
        apply tickSeq_zero_sum rest (s0Full c) (by simp [s0Full]; exact hc.1)
        · rwa [hfull] at hrest
        · exact hrest0

/-- C5 (amended): starting from S0 with a full countdown, ticking with
non-negative `dt` values that never overshoot the standing countdown
(`NoOvershoot` — so no phase time is discarded by the
reset-to-full-duration on transition) and whose sum equals the sum of all
five configured phase durations returns the signal exactly to S0 with a
full countdown; each tick decrements the countdown by `dt` and, on
crossing zero, moves to the next of the five phases and resets the
countdown to that phase's configured duration, never skipping a phase.
Without the no-overshoot restriction the closure fails, because a tick
that overshoots a boundary discards the overshoot when the countdown is
reset (see the counterexample). -/
theorem signal_cycle_closure_amended (c : SigCycle) (dts : List ℚ)
    (hpos : 0 < c.nsGreen ∧ 0 < c.nsYellow ∧ 0 < c.allRed ∧ 0 < c.ewGreen ∧
      0 < c.ewYellow)
    (hno : NoOvershoot (s0Full c) dts)
    (hsum : dts.sum = cycleTotal c) :
    tickSeq (s0Full c) dts = s0Full c := by
  apply tickSeq_togo dts c (s0Full c) hpos
  · exact ⟨rfl, rfl, hpos.1, Or.inl ⟨rfl, rfl⟩⟩
  · exact hno
  · rw [hsum]
    unfold togo cycleTotal s0Full
    simp [phaseTail]
    ring

/-- Witness for `signal_cycle_closure_amended`: the default duration table
with the boundary-aligned tick sequence 30, 5, 2, 30, 5. -/
theorem signal_cycle_closure_amended_witness :
    (0 < defaultCycle.nsGreen ∧ 0 < defaultCycle.nsYellow ∧
        0 < defaultCycle.allRed ∧ 0 < defaultCycle.ewGreen ∧
        0 < defaultCycle.ewYellow) ∧
      NoOvershoot (s0Full defaultCycle) [30, 5, 2, 30, 5] ∧
      ([(30 : ℚ), 5, 2, 30, 5].sum = cycleTotal defaultCycle) ∧
      tickSeq (s0Full defaultCycle) [30, 5, 2, 30, 5] =
        s0Full defaultCycle := by
  have h1 : 0 < defaultCycle.nsGreen ∧ 0 < defaultCycle.nsYellow ∧
      0 < defaultCycle.allRed ∧ 0 < defaultCycle.ewGreen ∧
      0 < defaultCycle.ewYellow := by norm_num [defaultCycle]
  have h2 : NoOvershoot (s0Full defaultCycle) [30, 5, 2, 30, 5] := by
    simp [NoOvershoot, updateTrafficSignal, s0Full, defaultCycle]
  have h3 : [(30 : ℚ), 5, 2, 30, 5].sum = cycleTotal defaultCycle := by
    norm_num [cycleTotal, defaultCycle]
  exact ⟨h1, h2, h3, signal_cycle_closure_amended defaultCycle _ h1 h2 h3⟩

/-- C5 counterexample: a single tick whose `dt` is the whole cycle total
(72 with the default durations) has cumulative `dt` equal to the sum of
the five phase durations, yet it leaves the signal in S1 (NS yellow) with
countdown `nsYellow` — the overshoot past the S0/S1 boundary is
discarded, so the claim's "any sequence of dt values summing to the cycle
total returns to S0" is false as stated. -/
theorem signal_cycle_closure_cex :
    [(72 : ℚ)].sum = cycleTotal defaultCycle ∧
      (tickSeq initialSignal [(72 : ℚ)]).northSouth = Color.yellow ∧
      initialSignal.northSouth = Color.green ∧
      tickSeq initialSignal [(72 : ℚ)] ≠ initialSignal := by
  refine ⟨by norm_num [cycleTotal, defaultCycle], ?_, rfl, ?_⟩
  · norm_num [tickSeq, updateTrafficSignal, initialSignal, s0Full,
      defaultCycle]
  · intro hcontra
    have : (tickSeq initialSignal [(72 : ℚ)]).northSouth =
        initialSignal.northSouth := by rw [hcontra]
    rw [show (tickSeq initialSignal [(72 : ℚ)]).northSouth = Color.yellow by
      norm_num [tickSeq, updateTrafficSignal, initialSignal, s0Full,
        defaultCycle]] at this
    simp [initialSignal, s0Full] at this

/-- C6: an obstruction-placement request at a coordinate outside the
drivable footprint reports the off-road error and leaves the obstruction
set (and the tool selection) unchanged, while a request inside the
footprint with a tool selected appends exactly one obstruction — in the
enhanced placement of part_006 and in the basic placement of part_000
(where the tool must be selected for the request to be processed at
all). -/
theorem placement_validation :
    (∀ (tool : Option ObstructionType) (obs : List Obstruction) (nid : ℕ)
        (x z : ℚ), validLane x z = false →
        (placeObstructionAtPosition tool obs nid x z).obstructions = obs ∧
          (placeObstructionAtPosition tool obs nid x z).offRoadError = true ∧
          (placeObstructionAtPosition tool obs nid x z).selectedTool = tool) ∧
    (∀ (t : ObstructionType) (obs : List Obstruction) (nid : ℕ) (x z : ℚ),
        validLane x z = true →
        (placeObstructionAtPosition (some t) obs nid x z).obstructions.length
            = obs.length + 1 ∧
          (placeObstructionAtPosition (some t) obs nid x z).offRoadError =
            false) ∧
    (∀ (t : ObstructionType) (obs : List Obstruction) (nid : ℕ) (x z : ℚ),
        isOnRoad x z = false →
        (placeObstructionBasic (some t) obs nid x z).obstructions = obs ∧
          (placeObstructionBasic (some t) obs nid x z).offRoadError = true) ∧
    (∀ (t : ObstructionType) (obs : List Obstruction) (nid : ℕ) (x z : ℚ),
        isOnRoad x z = true →
        (placeObstructionBasic (some t) obs nid x z).obstructions.length =
          obs.length + 1) := by
  refine ⟨?_, ?_, ?_, ?_⟩
  · intro tool obs nid x z h
    simp [placeObstructionAtPosition, h]
  · intro t obs nid x z h
    simp [placeObstructionAtPosition, h]
  · intro t obs nid x z h
    simp [placeObstructionBasic, h]
  · intro t obs nid x z h
    simp [placeObstructionBasic, h]

/-- Witness for `placement_validation`: the far-off-road coordinate
(1000, 1000) of the spec's example is rejected with no state change, and
the on-road origin accepts exactly one pothole. -/
theorem placement_validation_witness :
    validLane 1000 1000 = false ∧
      (placeObstructionAtPosition (some ObstructionType.pothole) [] 0 1000
          1000).obstructions = ([] : List Obstruction) ∧
      (placeObstructionAtPosition (some ObstructionType.pothole) [] 0 1000
          1000).offRoadError = true ∧
      validLane 0 0 = true ∧
      (placeObstructionAtPosition (some ObstructionType.pothole) [] 0 0
          0).obstructions.length = 0 + 1 ∧
      isOnRoad 1000 1000 = false ∧
      (placeObstructionBasic (some ObstructionType.pothole) [] 0 1000
          1000).obstructions = ([] : List Obstruction) ∧
      isOnRoad 0 0 = true ∧
      (placeObstructionBasic (some ObstructionType.pothole) [] 0 0
          0).obstructions.length = 0 + 1 := by
  have habs : |(1000 : ℚ)| = 1000 :=
    abs_of_nonneg (by norm_num)
  have habs0 : |(0 : ℚ)| = 0 := abs_zero
  have hfar : validLane 1000 1000 = false := by
    simp [validLane, habs]
    norm_num
  have hnear : validLane 0 0 = true := by
    simp [validLane, habs0]
    norm_num
  have hfarB : isOnRoad 1000 1000 = false := by
    simp [isOnRoad, habs]
    norm_num
  have hnearB : isOnRoad 0 0 = true := by
    simp [isOnRoad, habs0]
  refine ⟨hfar, (placement_validation.1 _ [] 0 1000 1000 hfar).1,
    (placement_validation.1 _ [] 0 1000 1000 hfar).2.1, hnear,
    (placement_validation.2.1 ObstructionType.pothole [] 0 0 0 hnear).1,
    hfarB, (placement_validation.2.2.1 ObstructionType.pothole [] 0 1000 1000
      hfarB).1, hnearB,
    placement_validation.2.2.2 ObstructionType.pothole [] 0 0 0 hnearB⟩

/-- C7 (amended): on the empty vehicle set both metric computations
return `activeVehicles = 0` and zero average wait, zero average speed and
zero congestion, with every division guarded by its zero-denominator
test; the enhanced variant's throughput, however, does not depend on the
vehicle set — it is `completed / elapsedMinutes` whenever
`elapsedMinutes > 0` (hence zero exactly when nothing has completed or no
time has elapsed), not unconditionally zero as claimed (see the
counterexample). -/
theorem metrics_graceful_empty :
    (∀ (idc completed : ℕ) (elapsed : ℚ),
        (updateMetricsEnh [] idc completed elapsed).activeVehicles = 0 ∧
          (updateMetricsEnh [] idc completed elapsed).averageWaitTime = 0 ∧
          (updateMetricsEnh [] idc completed elapsed).averageSpeed = 0 ∧
          (updateMetricsEnh [] idc completed elapsed).congestionLevel = 0 ∧
          (updateMetricsEnh [] idc completed elapsed).co2Emissions = 0 ∧
          (updateMetricsEnh [] idc completed elapsed).queueNorth = 0 ∧
          (updateMetricsEnh [] idc completed elapsed).queueSouth = 0 ∧
          (updateMetricsEnh [] idc completed elapsed).queueEast = 0 ∧
          (updateMetricsEnh [] idc completed elapsed).queueWest = 0 ∧
          (updateMetricsEnh [] idc completed elapsed).throughput =
            (if 0 < elapsed then (completed : ℚ) / elapsed else 0)) ∧
    (∀ idc : ℕ,
        (updateMetricsBasic [] idc).activeVehicles = 0 ∧
          (updateMetricsBasic [] idc).averageWaitTime = 0 ∧
          (updateMetricsBasic [] idc).averageSpeed = 0 ∧
          (updateMetricsBasic [] idc).congestionLevel = 0 ∧
          (updateMetricsBasic [] idc).co2Emissions = 0) := by
  constructor
  · intro idc completed elapsed
    norm_num [updateMetricsEnh]
  · intro idc
    norm_num [updateMetricsBasic]

/-- C7 counterexample: with three completed vehicles and one elapsed
minute, the enhanced metrics on the empty vehicle set report throughput 3,
not 0 — the claim's "zero for every rate-based metric (… throughput)" is
false as stated. -/
theorem metrics_empty_cex :
    (updateMetricsEnh [] 0 3 1).activeVehicles = 0 ∧
      (updateMetricsEnh [] 0 3 1).throughput = 3 ∧
      (updateMetricsEnh [] 0 3 1).throughput ≠ 0 := by
  norm_num [updateMetricsEnh]

/-- C8 (amended): in the optimized engine of part_003, a tick that leaves
the updated speed below the near-zero threshold 0.1 adds exactly `dt` to
the accumulated wait time, and sets `isWaiting` true exactly when the
accumulated wait now exceeds the one-second hysteresis threshold.  (The
A/B engine of EnhancedSimulationContext.tsx instead accrues wait only
while blocked and resets it to zero otherwise, and never updates
`isWaiting` — so the claim does not hold of that cited update; see the
counterexample.) -/
theorem wait_accrual_amended (obstructions : List Obstruction) (v : Vehicle)
    (dt : ℚ)
    (h : (updateVehiclePhysicsOpt obstructions v dt).speed < 0.1) :
    (updateVehiclePhysicsOpt obstructions v dt).waitTime = v.waitTime + dt ∧
      ((updateVehiclePhysicsOpt obstructions v dt).isWaiting = true ↔
        1 < v.waitTime + dt) := by
  have hw : (updateVehiclePhysicsOpt obstructions v dt).waitTime =
      if (updateVehiclePhysicsOpt obstructions v dt).speed < 0.1 then
        v.waitTime + dt
      else max 0 (v.waitTime - dt * 0.5) := rfl
  have hiw : (updateVehiclePhysicsOpt obstructions v dt).isWaiting =
      if (updateVehiclePhysicsOpt obstructions v dt).speed < 0.1 then
        decide (1.0 < v.waitTime + dt)
      else false := rfl
  rw [hw, hiw, if_pos h, if_pos h]
  refine ⟨rfl, ?_⟩
  rw [decide_eq_true_eq]
  norm_num

/-- Witness for `wait_accrual_amended`: a car stopped inside a barricade
zone accrues one further second of wait and flips its waiting flag. -/
theorem wait_accrual_amended_witness :
    (let o : Obstruction :=
      { id := 0, type := ObstructionType.barricade, position := ⟨0, 0, 0⟩,
        size := ⟨5, 1, 3⟩, lane := 0, direction := Dir.north,
        effect := { speedReduction := 0, capacityReduction := 0,
                    blocked := true } }
     let v : Vehicle :=
      { id := 0, position := ⟨0, 0, 0⟩, speed := 0, targetSpeed := 0,
        maxSpeed := 13.9, acceleration := 2.5, deceleration := 4.5,
        safetyDistance := 2, direction := Dir.north,
        path := [⟨0, 0, 0⟩, ⟨100, 0, 0⟩], pathIndex := 0, isWaiting := false,
        waitTime := 5, co2Emitted := 0 }
     (updateVehiclePhysicsOpt [o] v 1).speed < 0.1 ∧
       (updateVehiclePhysicsOpt [o] v 1).waitTime = v.waitTime + 1 ∧
       ((updateVehiclePhysicsOpt [o] v 1).isWaiting = true ↔
         1 < v.waitTime + 1)) := by
  refine ⟨?_, ?_, ?_⟩
  · norm_num [updateVehiclePhysicsOpt, obstructionScanOpt, scanStepOpt, sgn]
  · exact (wait_accrual_amended _ _ 1 (by norm_num [updateVehiclePhysicsOpt,
      obstructionScanOpt, scanStepOpt, sgn])).1
  · exact (wait_accrual_amended _ _ 1 (by norm_num [updateVehiclePhysicsOpt,
      obstructionScanOpt, scanStepOpt, sgn])).2

/-- C8 counterexample: in the A/B engine, a live car at rest with no
obstruction (hence not blocked) whose updated speed (0.02) is below the
near-zero threshold has its accumulated wait time reset to zero rather
than increased by `dt` — the claim fails on this cited update. -/
theorem wait_accrual_cex :
    (let v : Vehicle :=
      { id := 0, position := ⟨0, 0, 0⟩, speed := 0, targetSpeed := 1,
        maxSpeed := 1, acceleration := 2.5, deceleration := 4.5,
        safetyDistance := 2, direction := Dir.north,
        path := [⟨0, 0, 0⟩, ⟨100, 0, 0⟩], pathIndex := 0, isWaiting := false,
        waitTime := 5, co2Emitted := 0 }
     (updateVehicleAB [] [] Mode.solution false false v (1 / 100)).speed <
         0.1 ∧
       (updateVehicleAB [] [] Mode.solution false false v
           (1 / 100)).waitTime = 0 ∧
       ¬ ((updateVehicleAB [] [] Mode.solution false false v
            (1 / 100)).waitTime = 5 + 1 / 100)) := by
  refine ⟨?_, ?_, ?_⟩ <;>
    norm_num [updateVehicleAB, abAdjusted, collisionScan, obstructionScan,
      distLt, sqrtLtB, distSq, List.getD]

/-- C10: in the enhanced/optimized kinematics variant of part_003, a tick
whose updated speed is at or above the near-zero threshold 0.1 decays the
accumulated wait time by exactly `0.5 * dt`, floored at zero (no
one-step reset), and sets `isWaiting` to false. -/
theorem wait_decay_enhanced (obstructions : List Obstruction) (v : Vehicle)
    (dt : ℚ)
    (h : ¬ ((updateVehiclePhysicsOpt obstructions v dt).speed < 0.1)) :
    (updateVehiclePhysicsOpt obstructions v dt).waitTime =
        max 0 (v.waitTime - dt * 0.5) ∧
      (updateVehiclePhysicsOpt obstructions v dt).isWaiting = false := by
  have hw : (updateVehiclePhysicsOpt obstructions v dt).waitTime =
      if (updateVehiclePhysicsOpt obstructions v dt).speed < 0.1 then
        v.waitTime + dt
      else max 0 (v.waitTime - dt * 0.5) := rfl
  have hiw : (updateVehiclePhysicsOpt obstructions v dt).isWaiting =
      if (updateVehiclePhysicsOpt obstructions v dt).speed < 0.1 then
        decide (1.0 < v.waitTime + dt)
      else false := rfl
  rw [hw, hiw, if_neg h, if_neg h]
  exact ⟨rfl, rfl⟩

/-- Witness for `wait_decay_enhanced`: a car cruising at 5 with 3 seconds
of accumulated wait decays to 2.5 seconds. -/
theorem wait_decay_enhanced_witness :
    (let v : Vehicle :=
      { id := 0, position := ⟨0, 0, 0⟩, speed := 5, targetSpeed := 5,
        maxSpeed := 5, acceleration := 2.5, deceleration := 4.5,
        safetyDistance := 2, direction := Dir.north,
        path := [⟨0, 0, 0⟩, ⟨100, 0, 0⟩], pathIndex := 0, isWaiting := true,
        waitTime := 3, co2Emitted := 0 }
     ¬ ((updateVehiclePhysicsOpt [] v 1).speed < 0.1) ∧
       (updateVehiclePhysicsOpt [] v 1).waitTime =
         max 0 (v.waitTime - 1 * 0.5) ∧
       (updateVehiclePhysicsOpt [] v 1).isWaiting = false) := by
  refine ⟨?_, ?_, ?_⟩
  · norm_num [updateVehiclePhysicsOpt, obstructionScanOpt, scanStepOpt, sgn]
  · exact (wait_decay_enhanced _ _ 1 (by norm_num [updateVehiclePhysicsOpt,
      obstructionScanOpt, scanStepOpt, sgn])).1
  · exact (wait_decay_enhanced _ _ 1 (by norm_num [updateVehiclePhysicsOpt,
      obstructionScanOpt, scanStepOpt, sgn])).2

/-- C9 (amended): both signalized-mode path generators are pure functions
of (entry direction, turn intent) returning an ordered waypoint list of
between 2 and 7 waypoints — 4 for straight movements in both generators,
5 for turns in the basic generator, but 7 (not at most 6 as claimed) for
turns in the enhanced generator of part_006. -/
theorem path_waypoint_count_amended :
    ∀ (d : Dir) (t : Turn),
      (2 ≤ (generateVehiclePath d t).length ∧
          (generateVehiclePath d t).length ≤ 7) ∧
        (2 ≤ (generateVehiclePathBasic d t).length ∧
          (generateVehiclePathBasic d t).length ≤ 7) := by
  intro d t
  cases d <;> cases t <;>
    exact ⟨⟨by decide, by decide⟩, ⟨by decide, by decide⟩⟩

/-- C9 counterexample: the enhanced generator's north-entry right turn has
7 waypoints, above the claimed upper bound of 6. -/
theorem path_waypoint_count_cex :
    (generateVehiclePath Dir.north Turn.right).length = 7 ∧
      ¬ ((generateVehiclePath Dir.north Turn.right).length ≤ 6) := by
  constructor <;> decide
